import Mathlib

/-!
Shallow embedding of the client-side data synchronization core of the
FinanceFlow single-page application (src/client/pages/Index.tsx).

The embedding models the state held by the Index component (session,
the three record collections, the load/loaded flags, the localStorage
mirror, outgoing BroadcastChannel messages and toast notifications) and
the operations the claims are about:

  - loadDataFromSupabase (authoritative pull with retry and REST fallback)
  - the SIGNED_OUT auth-event handler
  - the cross-tab BroadcastChannel sign_out message handler
  - handleAddTransaction / handleAddBudget / handleAddRecurring
  - handleDeleteTransaction (optimistic delete with verification)
  - checkStorageQuota (capacity guard)

Network interactions are modelled by explicit oracles: a record of the
results each remote call would return in a given execution.  The
functions are direct translations of the TypeScript control flow for a
single uninterrupted run (single-threaded event-loop semantics, no
abort fired during the call, which is the execution the claims speak
about).
-/

namespace FinanceFlow

/-- An authenticated session as held in React state: the user id and the
access token (the token can be absent on reconstructed sessions). -/
structure Session where
  userId : String
  accessToken : Option String
deriving DecidableEq, Repr

/-- A transaction row.  Domain fields beyond the ones the synchronization
logic inspects (id and user_id) are kept as representative payload. -/
structure Transaction where
  id : String
  user_id : String
  date : String
  amount : Nat
deriving DecidableEq, Repr

/-- A budget goal row. -/
structure BudgetGoal where
  id : String
  user_id : String
  monthlyLimit : Nat
deriving DecidableEq, Repr

/-- A recurring transaction template row. -/
structure RecurringTransaction where
  id : String
  user_id : String
deriving DecidableEq, Repr

/-- Messages posted on the financeflow-storage BroadcastChannel. -/
inductive BroadcastMsg where
  | update
  | sign_out
deriving DecidableEq, Repr

/-- The durable local mirror (localStorage): the three backup keys
(financeflow_transactions, financeflow_budgets, financeflow_recurring,
stored as opaque serialized blobs) and the Supabase auth-token key. -/
structure LocalMirror where
  txBackup : Option String
  budgetBackup : Option String
  recurringBackup : Option String
  authToken : Option Session
deriving DecidableEq, Repr

/-- The state of one tab of the application, projected to the fields the
synchronization logic reads and writes. -/
structure AppState where
  session : Option Session
  transactions : List Transaction
  budgets : List BudgetGoal
  recurring : List RecurringTransaction
  loadedFromSupabase : Bool
  lastLoadedUserId : Option String
  isLoadingData : Bool
  activeLoadUserId : Option String
  justLoggedOut : Bool
  initialDataLoaded : Bool
  storageFull : Bool
  backgroundRetryScheduled : Bool
  mirror : LocalMirror
  broadcasts : List BroadcastMsg
  toasts : List String
deriving DecidableEq, Repr

/-- The data one successful authoritative read returns: the three
collections for the requested owner. -/
structure LoadData where
  tx : List Transaction
  bg : List BudgetGoal
  rc : List RecurringTransaction
deriving DecidableEq, Repr

/-- The remote oracle for one loadDataFromSupabase execution: the result
of each Supabase-client attempt (indexed by attempt number, none means
that attempt failed or timed out) and the result of the REST fallback
(none means the REST transactions fetch failed; the budgets and
recurring parts of a successful REST fallback are best-effort and may be
empty, which is why they live inside LoadData). -/
structure LoadRemote where
  attempt : Nat → Option LoadData
  rest : Option LoadData

/-- Result of a loadDataFromSupabase call: the new state, how many
Supabase-client query batches were dispatched, and whether the REST
fallback was dispatched. -/
structure LoadResult where
  state : AppState
  clientDispatches : Nat
  restDispatched : Bool
deriving Repr

/-- loadDataFromLocalStorage: every read in the source is commented out
(Supabase is the source of truth), so the function is a no-op on the
collections. -/
def loadDataFromLocalStorage (st : AppState) : AppState := st

/-- State updates common to the success paths of loadDataFromSupabase
(both the client-query path and the REST fallback path): wholesale
replacement of the three collections, loaded flags, update broadcast,
initial-data flag, and release of the loading lock. -/
def applyLoadSuccess (st : AppState) (userId : String) (d : LoadData) : AppState :=
  { st with
    transactions := d.tx
    budgets := d.bg
    recurring := d.rc
    loadedFromSupabase := true
    lastLoadedUserId := some userId
    broadcasts := st.broadcasts ++ [BroadcastMsg.update]
    initialDataLoaded := true
    isLoadingData := false
    activeLoadUserId := none }

/-- State updates on the failure path of loadDataFromSupabase (all client
attempts and the REST fallback exhausted): fall back to
loadDataFromLocalStorage (a no-op), leave the loaded flag false, schedule
the background retry loop, release the loading lock.  The collections
are not touched. -/
def applyLoadFailure (st : AppState) : AppState :=
  { loadDataFromLocalStorage st with
    loadedFromSupabase := false
    backgroundRetryScheduled := true
    isLoadingData := false
    activeLoadUserId := none }

/-- Run the bounded retry loop of loadDataFromSupabase: up to fuel
attempts starting at attempt number a, returning the first successful
result together with the number of query batches dispatched. -/
def firstSuccess (attempt : Nat → Option LoadData) : Nat → Nat → Option LoadData × Nat
  | 0, _ => (none, 0)
  | Nat.succ fuel, a =>
    match attempt a with
    | some d => (some d, 1)
    | none =>
      let r := firstSuccess attempt fuel (a + 1)
      (r.1, r.2 + 1)

/-- The access token the REST fallback would use: the session in React
state first, then the localStorage auth token when it belongs to the
requested user. -/
def restToken (session : Option Session) (mirror : LocalMirror)
    (userId : String) : Option String :=
  match session with
  | some s =>
    match s.accessToken with
    | some t => some t
    | none =>
      match mirror.authToken with
      | some m => if m.userId = userId then m.accessToken else none
      | none => none
  | none =>
    match mirror.authToken with
    | some m => if m.userId = userId then m.accessToken else none
    | none => none

/-- The session loadDataFromSupabase sees at its stale-load guard: React
state first, localStorage fallback second. -/
def currentSessionOf (st : AppState) : Option Session :=
  match st.session with
  | some s => some s
  | none => st.mirror.authToken

/-- loadDataFromSupabase(userId, { force }) for one uninterrupted
execution against the given remote oracle.  Mirrors the guard order of
the source: stale-load cancellation for a different user, session
presence check, per-user in-flight deduplication, already-loaded skip
(bypassed by force), then up to three client attempts followed by the
REST fallback. -/
def loadDataFromSupabase (st : AppState) (userId : String) (force : Bool)
    (remote : LoadRemote) : LoadResult :=
  let st0 :=
    if st.activeLoadUserId.isSome ∧ st.activeLoadUserId ≠ some userId then
      { st with isLoadingData := false }
    else st
  match currentSessionOf st0 with
  | none => ⟨st0, 0, false⟩
  | some s =>
    if s.userId ≠ userId then ⟨st0, 0, false⟩
    else if st0.isLoadingData ∧ st0.activeLoadUserId = some userId then ⟨st0, 0, false⟩
    else if ¬force ∧ st0.loadedFromSupabase ∧ st0.lastLoadedUserId = some userId then
      ⟨st0, 0, false⟩
    else
      let st1 := { st0 with
        isLoadingData := true
        activeLoadUserId := some userId
        backgroundRetryScheduled := false }
      let fs := firstSuccess remote.attempt 3 1
      match fs.1 with
      | some d => ⟨applyLoadSuccess st1 userId d, fs.2, false⟩
      | none =>
        match restToken st1.session st1.mirror userId with
        | some _ =>
          match remote.rest with
          | some d => ⟨applyLoadSuccess st1 userId d, fs.2, true⟩
          | none => ⟨applyLoadFailure st1, fs.2, true⟩
        | none => ⟨applyLoadFailure st1, fs.2, false⟩

/-- The SIGNED_OUT branch of the onAuthStateChange listener: abort and
forget any pending load, stop the background retry interval, clear
session, all three collections and the loaded flags, reset the
initial-data flag, mark just-logged-out, remove the three backup keys
from localStorage, and post a sign_out broadcast. -/
def onSignedOut (st : AppState) : AppState :=
  { st with
    isLoadingData := false
    activeLoadUserId := none
    backgroundRetryScheduled := false
    session := none
    transactions := []
    budgets := []
    recurring := []
    lastLoadedUserId := none
    loadedFromSupabase := false
    initialDataLoaded := false
    justLoggedOut := true
    mirror := { st.mirror with
      txBackup := none
      budgetBackup := none
      recurringBackup := none }
    broadcasts := st.broadcasts ++ [BroadcastMsg.sign_out] }

/-- The sign_out branch of the BroadcastChannel onmessage handler
(receiving side): clear session, the three collections, the loaded
flags and the initial-data flag, and mark just-logged-out.  The source
handler touches neither localStorage nor the loading-lock refs and
posts no message of its own. -/
def onCrossTabSignOut (st : AppState) : AppState :=
  { st with
    session := none
    transactions := []
    budgets := []
    recurring := []
    loadedFromSupabase := false
    lastLoadedUserId := none
    initialDataLoaded := false
    justLoggedOut := true }

/-- The part of the SIGNED_IN branch of onAuthStateChange that runs
before the authoritative load when the event is a genuine new login:
install the session, reset the loaded flag, record the user as the last
loaded one. -/
def onSignedIn (st : AppState) (s : Session) : AppState :=
  { st with
    session := some s
    loadedFromSupabase := false
    lastLoadedUserId := some s.userId }

/-- Supabase free tier database limit used by the capacity guard:
500MB. -/
def STORAGE_LIMIT_BYTES : Nat := 500 * 1024 * 1024

/-- The warning threshold in bytes.  The source compares
totalSize > STORAGE_LIMIT_BYTES * STORAGE_WARNING_THRESHOLD with
STORAGE_WARNING_THRESHOLD = 0.9.  In IEEE-754 double arithmetic
524288000 * 0.9 rounds to exactly 471859200.0 (the exact product
exceeds 471859200 by about 1.16e-8, far below the half-ulp 3e-8 at that
magnitude), and totalSize is an integer (a sum of string lengths), so
the comparison is exactly totalSize > 471859200. -/
def warningThresholdBytes : Nat := 9 * STORAGE_LIMIT_BYTES / 10

/-- Whether a serialized size is over the warning threshold. -/
def overLimit (totalSize : Nat) : Bool :=
  decide (totalSize > warningThresholdBytes)

/-- checkStorageQuota: recompute the at-capacity flag from the three
serialized collection sizes.  Returns the new flag and whether the
warning (console.warn) fired.  The warning fires only on the upward
transition; the downward transition clears the flag silently; on-side
recomputations change nothing. -/
def checkStorageQuota (transactionsSize budgetsSize recurringSize : Nat)
    (storageFull : Bool) : Bool × Bool :=
  let totalSize := transactionsSize + budgetsSize + recurringSize
  let isOverLimit := overLimit totalSize
  if isOverLimit ∧ storageFull = false then (true, true)
  else if isOverLimit = false ∧ storageFull then (false, false)
  else (storageFull, false)

/-- Iterate checkStorageQuota over a sequence of total sizes (one
recomputation per Local Cache mutation), collecting the final flag and
the number of warnings fired. -/
def runQuota : Bool → List Nat → Bool × Nat
  | flag, [] => (flag, 0)
  | flag, s :: rest =>
    let step := checkStorageQuota s 0 0 flag
    let r := runQuota step.1 rest
    (r.1, (if step.2 then 1 else 0) + r.2)

/-- Remote oracle for one handleAddTransaction execution: the rows the
REST insert returns (Prefer: return=representation) or its error, and
the result of the read-after-write transactions fetch. -/
structure AddTxRemote where
  insertResult : Except String (List Transaction)
  refetchResult : Except String (List Transaction)

/-- Result of a create or delete handler: new state, the settled promise
(ok, or the error re-thrown to the caller), and whether a remote insert
or delete was dispatched. -/
structure MutationResult where
  state : AppState
  result : Except String Unit
  remoteDispatched : Bool
deriving Repr

/-- handleAddTransaction for one execution.  The uuid the source
generates for the new record is modelled by the id field of the passed
transaction.  Without a session: local-only prepend plus update
broadcast.  With a session: requires an access token, dispatches the
REST insert; any failure (insert error, empty representation, failed
read-after-write) is toasted and re-thrown with the cache untouched; on
success the transactions collection is replaced by the read-after-write
result and an update broadcast is posted. -/
def handleAddTransaction (st : AppState) (transaction : Transaction)
    (remote : AddTxRemote) : MutationResult :=
  match st.session with
  | none =>
    ⟨{ st with
        transactions := transaction :: st.transactions
        broadcasts := st.broadcasts ++ [BroadcastMsg.update] },
      Except.ok (), false⟩
  | some s =>
    match s.accessToken with
    | none =>
      ⟨{ st with toasts := st.toasts ++ ["Transaction Failed to store in the database"] },
        Except.error "No valid session token. Please log in again.", false⟩
    | some _ =>
      match remote.insertResult with
      | Except.error e =>
        ⟨{ st with toasts := st.toasts ++ ["Transaction Failed to store in the database"] },
          Except.error e, true⟩
      | Except.ok rows =>
        if rows.length = 0 then
          ⟨{ st with toasts := st.toasts ++ ["Transaction Failed to store in the database"] },
            Except.error "Insert did not return created record", true⟩
        else
          match remote.refetchResult with
          | Except.error e =>
            ⟨{ st with toasts := st.toasts ++ ["Transaction Failed to store in the database"] },
              Except.error e, true⟩
          | Except.ok txs =>
            ⟨{ st with
                transactions := txs
                broadcasts := st.broadcasts ++ [BroadcastMsg.update] },
              Except.ok (), true⟩

/-- Remote oracle for one handleAddBudget execution. -/
structure AddBudgetRemote where
  insertResult : Except String Unit
  refetchResult : Except String (List BudgetGoal)

/-- handleAddBudget for one execution.  Without a session: local-only
append.  With a session: dispatches the insert; on success the budgets
collection is replaced by the read-after-write result; on any failure
the catch block appends the unconfirmed budget to the Local Cache as a
fallback, posts a toast, and does not re-throw (the returned promise
resolves). -/
def handleAddBudget (st : AppState) (budget : BudgetGoal)
    (remote : AddBudgetRemote) : MutationResult :=
  match st.session with
  | none =>
    ⟨{ st with budgets := st.budgets ++ [budget] }, Except.ok (), false⟩
  | some _ =>
    match remote.insertResult with
    | Except.error _ =>
      ⟨{ st with
          budgets := st.budgets ++ [budget]
          toasts := st.toasts ++ ["Budget failed to save"] },
        Except.ok (), true⟩
    | Except.ok _ =>
      match remote.refetchResult with
      | Except.error _ =>
        ⟨{ st with
            budgets := st.budgets ++ [budget]
            toasts := st.toasts ++ ["Budget failed to save"] },
          Except.ok (), true⟩
      | Except.ok bgData =>
        ⟨{ st with budgets := bgData }, Except.ok (), true⟩

/-- Remote oracle for one handleAddRecurring execution. -/
structure AddRecurringRemote where
  insertResult : Except String Unit
  refetchResult : Except String (List RecurringTransaction)

/-- handleAddRecurring for one execution; same structure as
handleAddBudget, on the recurring collection. -/
def handleAddRecurring (st : AppState) (trans : RecurringTransaction)
    (remote : AddRecurringRemote) : MutationResult :=
  match st.session with
  | none =>
    ⟨{ st with recurring := st.recurring ++ [trans] }, Except.ok (), false⟩
  | some _ =>
    match remote.insertResult with
    | Except.error _ =>
      ⟨{ st with
          recurring := st.recurring ++ [trans]
          toasts := st.toasts ++ ["Recurring failed to save"] },
        Except.ok (), true⟩
    | Except.ok _ =>
      match remote.refetchResult with
      | Except.error _ =>
        ⟨{ st with
            recurring := st.recurring ++ [trans]
            toasts := st.toasts ++ ["Recurring failed to save"] },
          Except.ok (), true⟩
      | Except.ok rcData =>
        ⟨{ st with recurring := rcData }, Except.ok (), true⟩

/-- Remote oracle for one handleDeleteTransaction execution: the rows
the delete returned (representation) or its error; the verification
select of the id (list of matching ids) or its error; and the
read-after-delete transactions fetch or its error. -/
structure DeleteRemote where
  deleteResult : Except String (List Transaction)
  checkResult : Except String (List String)
  refetchResult : Except String (List Transaction)

/-- The delete request the handler issues: the id equality filter, the
optional user_id equality filter, and the Local Cache contents at the
moment the request is dispatched (to witness the optimistic removal
happening before the remote call). -/
structure DeleteRequest where
  idFilter : String
  userFilter : Option String
  cacheAtDispatch : List Transaction
deriving DecidableEq, Repr

/-- Result of a handleDeleteTransaction execution: new state, the
settled promise, the issued delete request (none when no session:
local-only path, no remote call), and whether the verification select
was dispatched. -/
structure DeleteResult where
  state : AppState
  result : Except String Unit
  request : Option DeleteRequest
  verificationDispatched : Bool
deriving Repr

/-- handleDeleteTransaction for one execution.  Without a session:
local-only removal.  With a session: optimistic removal plus update
broadcast before the remote call; the remote delete uses the REST path
filtering on id only when an access token is in state, and the client
path filtering on id and user_id otherwise; a delete error restores the
snapshot and re-throws; a zero-row delete triggers the verification
select (absent remotely: success, record stays removed; still present
or verification failed: snapshot restored and an error thrown); a
positive-row delete triggers the read-after-delete fetch, whose failure
restores the snapshot without re-throwing. -/
def handleDeleteTransaction (st : AppState) (id : String)
    (remote : DeleteRemote) : DeleteResult :=
  let prevTransactions := st.transactions
  match st.session with
  | none =>
    ⟨{ st with transactions := prevTransactions.filter (fun t => t.id ≠ id) },
      Except.ok (), none, false⟩
  | some s =>
    let removed := prevTransactions.filter (fun t => t.id ≠ id)
    let st1 := { st with
      transactions := removed
      broadcasts := st.broadcasts ++ [BroadcastMsg.update] }
    let req : DeleteRequest :=
      match s.accessToken with
      | some _ => ⟨id, none, removed⟩
      | none => ⟨id, some s.userId, removed⟩
    match remote.deleteResult with
    | Except.error e =>
      ⟨{ st1 with
          transactions := prevTransactions
          broadcasts := st1.broadcasts ++ [BroadcastMsg.update] },
        Except.error e, some req, false⟩
    | Except.ok deleteData =>
      if deleteData.length = 0 then
        match remote.checkResult with
        | Except.error _ =>
          ⟨{ st1 with
              transactions := prevTransactions
              broadcasts := st1.broadcasts ++ [BroadcastMsg.update] },
            Except.error "No rows were deleted (permission or non-existent record)",
            some req, true⟩
        | Except.ok checkData =>
          if checkData.length > 0 then
            ⟨{ st1 with
                transactions := prevTransactions
                broadcasts := st1.broadcasts ++ [BroadcastMsg.update] },
              Except.error "No rows were deleted (permission or non-existent record)",
              some req, true⟩
          else
            ⟨{ st1 with broadcasts := st1.broadcasts ++ [BroadcastMsg.update] },
              Except.ok (), some req, true⟩
      else
        match remote.refetchResult with
        | Except.error _ =>
          ⟨{ st1 with
              transactions := prevTransactions
              broadcasts := st1.broadcasts ++ [BroadcastMsg.update] },
            Except.ok (), some req, false⟩
        | Except.ok txs =>
          ⟨{ st1 with
              transactions := txs
              broadcasts := st1.broadcasts ++ [BroadcastMsg.update] },
            Except.ok (), some req, false⟩

/-- The authoritative remote store: the three tables, each row carrying
its owner in user_id. -/
structure RemoteStore where
  tx : List Transaction
  bg : List BudgetGoal
  rc : List RecurringTransaction
deriving Repr

/-- One authoritative read batch: each table selected with the
user_id=eq.userId filter the source puts on every query. -/
def selectLoad (store : RemoteStore) (userId : String) : LoadData :=
  ⟨store.tx.filter (fun t => t.user_id = userId),
    store.bg.filter (fun b => b.user_id = userId),
    store.rc.filter (fun r => r.user_id = userId)⟩

/-- A healthy remote oracle backed by a store: every attempt and the
REST fallback answer the owner-scoped selects. -/
def storeRemote (store : RemoteStore) (userId : String) : LoadRemote :=
  ⟨fun _ => some (selectLoad store userId), some (selectLoad store userId)⟩

/-- The data deliverable by one loadDataFromSupabase execution: the
result of the first successful client attempt, else the REST fallback
result when an access token is available for the user. -/
def deliveredData (st : AppState) (userId : String) (remote : LoadRemote) :
    Option LoadData :=
  match (firstSuccess remote.attempt 3 1).1 with
  | some d => some d
  | none =>
    match restToken st.session st.mirror userId with
    | some _ => remote.rest
    | none => none

/-! Concrete fixtures used by witnesses and counterexamples. -/

/-- A session for user u1 holding an access token. -/
def sessionU1 : Session := ⟨"u1", some "tok1"⟩

/-- A transaction owned by u1. -/
def t1 : Transaction := ⟨"t1", "u1", "2025-03-01", 50⟩

/-- A second transaction owned by u1. -/
def t2 : Transaction := ⟨"t2", "u1", "2025-03-02", 20⟩

/-- A transaction owned by u2. -/
def t3 : Transaction := ⟨"t3", "u2", "2025-03-03", 30⟩

/-- A budget goal owned by u1. -/
def b1 : BudgetGoal := ⟨"b1", "u1", 100⟩

/-- A recurring template owned by u1. -/
def r1 : RecurringTransaction := ⟨"r1", "u1"⟩

/-- A mirror with a leftover transactions backup blob and no auth
token. -/
def mirrorEx : LocalMirror := ⟨some "txblob", none, none, none⟩

/-- A tab state where u1 is signed in, has loaded two transactions, one
budget and one recurring template, and no load is in flight. -/
def stEx : AppState :=
  { session := some sessionU1
    transactions := [t1, t2]
    budgets := [b1]
    recurring := [r1]
    loadedFromSupabase := true
    lastLoadedUserId := some "u1"
    isLoadingData := false
    activeLoadUserId := none
    justLoggedOut := false
    initialDataLoaded := true
    storageFull := false
    backgroundRetryScheduled := false
    mirror := mirrorEx
    broadcasts := []
    toasts := [] }

/-! Theorems -/

/-- When every client attempt fails, the bounded retry loop dispatches
one query batch per attempt and delivers nothing. -/
theorem firstSuccess_all_none (attempt : Nat → Option LoadData)
    (h : ∀ n, attempt n = none) :
    ∀ fuel a, firstSuccess attempt fuel a = (none, fuel) := by
  intro fuel
  induction fuel with
  | zero => intro a; rfl
  | succ k ih =>
    intro a
    unfold firstSuccess
    rw [h a]
    simp [ih (a + 1)]

/-- The retry loop with positive fuel dispatches at least one query
batch. -/
theorem firstSuccess_dispatch_pos (attempt : Nat → Option LoadData)
    (fuel a : Nat) (h : 0 < fuel) :
    1 ≤ (firstSuccess attempt fuel a).2 := by
  cases fuel with
  | zero => exact absurd h (by decide)
  | succ k =>
    unfold firstSuccess
    cases attempt a with
    | some d => simp
    | none => simp

/-- C1: no silent eviction on failed load — when every client attempt
of loadDataFromSupabase fails and the REST fallback fails too (or is
skipped for want of a token), the call leaves all three Local Cache
collections exactly as they were: a failed or timed-out pull never
replaces previously loaded data with an empty result.  Holds for every
starting state, in particular one holding N greater than zero records
for the active identity. -/
theorem loadDataFromSupabase_failure_preserves_cache
    (st : AppState) (userId : String) (force : Bool) (remote : LoadRemote)
    (hatt : ∀ n, remote.attempt n = none)
    (hrest : remote.rest = none) :
    (loadDataFromSupabase st userId force remote).state.transactions = st.transactions ∧
    (loadDataFromSupabase st userId force remote).state.budgets = st.budgets ∧
    (loadDataFromSupabase st userId force remote).state.recurring = st.recurring := by
  unfold loadDataFromSupabase
  simp only [firstSuccess_all_none remote.attempt hatt 3 1, hrest]
  repeat' split
  all_goals exact ⟨rfl, rfl, rfl⟩

/-- C1 witness: u1 holds two transactions, one budget and one recurring
template; a load whose every attempt and REST fallback fail leaves all
of them in place. -/
theorem loadDataFromSupabase_failure_preserves_cache_witness :
    (loadDataFromSupabase stEx "u1" true ⟨fun _ => none, none⟩).state.transactions = [t1, t2] ∧
    (loadDataFromSupabase stEx "u1" true ⟨fun _ => none, none⟩).state.budgets = [b1] ∧
    (loadDataFromSupabase stEx "u1" true ⟨fun _ => none, none⟩).state.recurring = [r1] := by
  have h := loadDataFromSupabase_failure_preserves_cache stEx "u1" true
    ⟨fun _ => none, none⟩ (fun _ => rfl) rfl
  exact ⟨h.1, h.2.1, h.2.2⟩

/-- C7: at most one in-flight load per identity — a second
loadDataFromSupabase call for the identity of the in-flight load
returns immediately with the state untouched and zero remote
dispatches, for every value of force (the in-flight guard is never
bypassed); when no load is in flight and the identity is already
loaded, force false short-circuits with zero dispatches while force
true bypasses only that already-loaded skip and dispatches at least one
remote read. -/
theorem loadDataFromSupabase_inflight_dedup
    (st : AppState) (u : String) (force : Bool) (remote : LoadRemote) (s : Session)
    (hs : st.session = some s) (hu : s.userId = u) :
    (st.isLoadingData = true → st.activeLoadUserId = some u →
      loadDataFromSupabase st u force remote = ⟨st, 0, false⟩) ∧
    (st.isLoadingData = false → st.activeLoadUserId = none →
      st.loadedFromSupabase = true → st.lastLoadedUserId = some u →
      loadDataFromSupabase st u false remote = ⟨st, 0, false⟩ ∧
      1 ≤ (loadDataFromSupabase st u true remote).clientDispatches) := by
  constructor
  · intro h1 h2
    simp [loadDataFromSupabase, currentSessionOf, hs, hu, h1, h2]
  · intro h1 h2 h3 h4
    constructor
    · simp [loadDataFromSupabase, currentSessionOf, hs, hu, h1, h2, h3, h4]
    · have hpos : 1 ≤ (firstSuccess remote.attempt 3 1).2 :=
        firstSuccess_dispatch_pos remote.attempt 3 1 (by decide)
      simp [loadDataFromSupabase, currentSessionOf, hs, hu, h1, h2, h3, h4]
      rcases hfs : firstSuccess remote.attempt 3 1 with ⟨r, c⟩
      rw [hfs] at hpos
      simp only [hfs]
      cases r with
      | some d => simpa using hpos
      | none =>
        simp only []
        split
        · split
          · simpa using hpos
          · simpa using hpos
        · simpa using hpos

/-- C7 witness: with a load in flight for u1, a second call for u1 with
force set is the identity with zero dispatches; with nothing in flight
and u1 already loaded, force false short-circuits and force true
dispatches a remote read. -/
theorem loadDataFromSupabase_inflight_dedup_witness :
    loadDataFromSupabase { stEx with isLoadingData := true, activeLoadUserId := some "u1" }
      "u1" true ⟨fun _ => some ⟨[], [], []⟩, none⟩ =
      ⟨{ stEx with isLoadingData := true, activeLoadUserId := some "u1" }, 0, false⟩ ∧
    loadDataFromSupabase stEx "u1" false ⟨fun _ => some ⟨[], [], []⟩, none⟩ = ⟨stEx, 0, false⟩ ∧
    1 ≤ (loadDataFromSupabase stEx "u1" true ⟨fun _ => some ⟨[], [], []⟩, none⟩).clientDispatches := by
  have ha := loadDataFromSupabase_inflight_dedup
    { stEx with isLoadingData := true, activeLoadUserId := some "u1" }
    "u1" true ⟨fun _ => some ⟨[], [], []⟩, none⟩ sessionU1 rfl rfl
  have hb := loadDataFromSupabase_inflight_dedup stEx "u1" false
    ⟨fun _ => some ⟨[], [], []⟩, none⟩ sessionU1 rfl rfl
  exact ⟨ha.1 rfl rfl, (hb.2 rfl rfl rfl rfl).1, (hb.2 rfl rfl rfl rfl).2⟩

/-- C2: authoritative pull postcondition — whenever loadDataFromSupabase
passes its guards and a remote result is delivered (by a client attempt
or by the REST fallback), all three Local Cache collections are
replaced wholesale by exactly the rows returned for the requested
owner, including empty collections, the loaded flags for that owner are
set, and a data-changed (update) cross-tab broadcast is posted. -/
theorem loadDataFromSupabase_success_postcondition
    (st : AppState) (userId : String) (force : Bool) (remote : LoadRemote)
    (s : Session) (d : LoadData)
    (hs : st.session = some s)
    (hu : s.userId = userId)
    (hin : st.isLoadingData = false)
    (hact : st.activeLoadUserId = none)
    (hskip : force = true ∨ ¬(st.loadedFromSupabase = true ∧ st.lastLoadedUserId = some userId))
    (hd : deliveredData st userId remote = some d) :
    (loadDataFromSupabase st userId force remote).state.transactions = d.tx ∧
    (loadDataFromSupabase st userId force remote).state.budgets = d.bg ∧
    (loadDataFromSupabase st userId force remote).state.recurring = d.rc ∧
    (loadDataFromSupabase st userId force remote).state.loadedFromSupabase = true ∧
    (loadDataFromSupabase st userId force remote).state.lastLoadedUserId = some userId ∧
    (loadDataFromSupabase st userId force remote).state.broadcasts =
      st.broadcasts ++ [BroadcastMsg.update] := by
  unfold deliveredData at hd
  have hcond : ¬(force = false ∧ st.loadedFromSupabase = true ∧
      st.lastLoadedUserId = some userId) := by
    rcases hskip with hf | hnl
    · subst hf; simp
    · intro h; exact hnl ⟨h.2.1, h.2.2⟩
  simp [loadDataFromSupabase, currentSessionOf, hs, hu, hin, hact, hcond]
  rcases hfs : firstSuccess remote.attempt 3 1 with ⟨r, c⟩
  rw [hfs] at hd
  simp only [hfs]
  cases r with
  | some d0 =>
    simp at hd
    subst hd
    simp [hcond, applyLoadSuccess]
  | none =>
    simp only at hd
    rw [hs] at hd
    cases hrtc : restToken (some s) st.mirror userId with
    | none => rw [hrtc] at hd; simp at hd
    | some tok =>
      rw [hrtc] at hd
      simp only at hd
      simp [hcond, hrtc, hd, applyLoadSuccess]

/-- C2 witness: a forced reload for u1 whose first attempt returns
empty collections empties all three Local Cache collections (the
authoritative empty result is trusted), sets the loaded flags for u1
and posts the update broadcast. -/
theorem loadDataFromSupabase_success_postcondition_witness :
    (loadDataFromSupabase stEx "u1" true
      ⟨fun _ => some ⟨[], [], []⟩, none⟩).state.transactions = [] ∧
    (loadDataFromSupabase stEx "u1" true
      ⟨fun _ => some ⟨[], [], []⟩, none⟩).state.budgets = [] ∧
    (loadDataFromSupabase stEx "u1" true
      ⟨fun _ => some ⟨[], [], []⟩, none⟩).state.recurring = [] ∧
    (loadDataFromSupabase stEx "u1" true
      ⟨fun _ => some ⟨[], [], []⟩, none⟩).state.loadedFromSupabase = true ∧
    (loadDataFromSupabase stEx "u1" true
      ⟨fun _ => some ⟨[], [], []⟩, none⟩).state.lastLoadedUserId = some "u1" ∧
    (loadDataFromSupabase stEx "u1" true
      ⟨fun _ => some ⟨[], [], []⟩, none⟩).state.broadcasts = [BroadcastMsg.update] := by
  have h := loadDataFromSupabase_success_postcondition stEx "u1" true
    ⟨fun _ => some ⟨[], [], []⟩, none⟩ sessionU1 ⟨[], [], []⟩
    rfl rfl rfl rfl (Or.inl rfl) rfl
  exact ⟨h.1, h.2.1, h.2.2.1, h.2.2.2.1, h.2.2.2.2.1, h.2.2.2.2.2⟩

/-- C3: no cross-owner leakage — after identity A signs out (the
SIGNED_OUT handler clears the Local Cache) and identity B signs in and
completes an authoritative load in the same tab against a store whose
reads are owner-scoped, the Local Cache contains zero records with
ownerId A, every record in all three collections is owned by B, and B
is the authenticated session the cache is displayed under. -/
theorem no_cross_owner_leakage
    (store : RemoteStore) (stA : AppState) (A B : String) (sB : Session)
    (hAB : A ≠ B) (hB : sB.userId = B) :
    ((loadDataFromSupabase (onSignedIn (onSignedOut stA) sB) B true
        (storeRemote store B)).state.transactions.filter
          (fun t => t.user_id = A)).length = 0 ∧
    (∀ t ∈ (loadDataFromSupabase (onSignedIn (onSignedOut stA) sB) B true
        (storeRemote store B)).state.transactions, t.user_id = B) ∧
    (∀ b ∈ (loadDataFromSupabase (onSignedIn (onSignedOut stA) sB) B true
        (storeRemote store B)).state.budgets, b.user_id = B) ∧
    (∀ r ∈ (loadDataFromSupabase (onSignedIn (onSignedOut stA) sB) B true
        (storeRemote store B)).state.recurring, r.user_id = B) ∧
    (loadDataFromSupabase (onSignedIn (onSignedOut stA) sB) B true
        (storeRemote store B)).state.session = some sB := by
  have htx : (loadDataFromSupabase (onSignedIn (onSignedOut stA) sB) B true
      (storeRemote store B)).state.transactions =
      store.tx.filter (fun t => t.user_id = B) := by
    simp [loadDataFromSupabase, currentSessionOf, onSignedIn, onSignedOut,
      storeRemote, firstSuccess, applyLoadSuccess, selectLoad, hB]
  have hbg : (loadDataFromSupabase (onSignedIn (onSignedOut stA) sB) B true
      (storeRemote store B)).state.budgets =
      store.bg.filter (fun b => b.user_id = B) := by
    simp [loadDataFromSupabase, currentSessionOf, onSignedIn, onSignedOut,
      storeRemote, firstSuccess, applyLoadSuccess, selectLoad, hB]
  have hrc : (loadDataFromSupabase (onSignedIn (onSignedOut stA) sB) B true
      (storeRemote store B)).state.recurring =
      store.rc.filter (fun r => r.user_id = B) := by
    simp [loadDataFromSupabase, currentSessionOf, onSignedIn, onSignedOut,
      storeRemote, firstSuccess, applyLoadSuccess, selectLoad, hB]
  have hses : (loadDataFromSupabase (onSignedIn (onSignedOut stA) sB) B true
      (storeRemote store B)).state.session = some sB := by
    simp [loadDataFromSupabase, currentSessionOf, onSignedIn, onSignedOut,
      storeRemote, firstSuccess, applyLoadSuccess, selectLoad, hB]
  refine ⟨?_, ?_, ?_, ?_, hses⟩
  · rw [htx, List.length_eq_zero, List.filter_eq_nil_iff]
    intro t ht hA
    have hBt : t.user_id = B := of_decide_eq_true (List.mem_filter.mp ht).2
    exact hAB ((of_decide_eq_true hA).symm.trans hBt)
  · intro t ht
    rw [htx] at ht
    exact of_decide_eq_true (List.mem_filter.mp ht).2
  · intro b hb
    rw [hbg] at hb
    exact of_decide_eq_true (List.mem_filter.mp hb).2
  · intro r hr
    rw [hrc] at hr
    exact of_decide_eq_true (List.mem_filter.mp hr).2

/-- C3 witness: a store holding three u1 transactions and one u2
transaction; after u2 signs out and u1 signs in and loads, the cache
holds no u2 record and exactly the u1 rows. -/
theorem no_cross_owner_leakage_witness :
    ((loadDataFromSupabase
        (onSignedIn (onSignedOut { stEx with session := some ⟨"u2", some "tok2"⟩ }) sessionU1)
        "u1" true (storeRemote ⟨[t1, t2, t3], [b1], [r1]⟩ "u1")).state.transactions.filter
          (fun t => t.user_id = "u2")).length = 0 ∧
    (loadDataFromSupabase
        (onSignedIn (onSignedOut { stEx with session := some ⟨"u2", some "tok2"⟩ }) sessionU1)
        "u1" true (storeRemote ⟨[t1, t2, t3], [b1], [r1]⟩ "u1")).state.session = some sessionU1 := by
  have h := no_cross_owner_leakage ⟨[t1, t2, t3], [b1], [r1]⟩
    { stEx with session := some ⟨"u2", some "tok2"⟩ } "u2" "u1" sessionU1
    (by decide) rfl
  exact ⟨h.1, h.2.2.2.2⟩

/-- C8: the at-capacity flag, recomputed after every Local Cache
mutation against the 90 percent warning fraction of the 500MB ceiling,
equals after every recomputation the predicate "serialized size over
the threshold", and the warning fires exactly on the false-to-true
transition.  Consequently, along the 89 to 91 to 85 percent scenario,
the flag flips up exactly once (one warning), flips back down exactly
once (silently), and recomputations on the same side of the threshold
change nothing and fire nothing. -/
theorem checkStorageQuota_edge_triggered :
    (∀ t b r f, checkStorageQuota t b r f =
      (overLimit (t + b + r), !f && overLimit (t + b + r))) ∧
    runQuota false [466616320, 477102080, 477102080, 445644800, 445644800] = (false, 1) ∧
    runQuota false [466616320, 477102080] = (true, 1) ∧
    runQuota true [477102080, 477102080, 477102080] = (true, 0) ∧
    runQuota false [445644800, 466616320, 445644800] = (false, 0) := by
  refine ⟨?_, by decide, by decide, by decide, by decide⟩
  intro t b r f
  unfold checkStorageQuota
  cases hov : overLimit (t + b + r) <;> cases f <;> simp [hov]

/-- C9 counterexample: a tab whose durable local mirror holds a leftover
transactions backup blob receives a sign_out broadcast; the handler
clears the session but leaves the mirror blob in place, so the claim
that the receiving tab clears its durable local mirror is false. -/
theorem onCrossTabSignOut_mirror_not_cleared_cex :
    (onCrossTabSignOut { stEx with mirror := mirrorEx }).mirror.txBackup = some "txblob" ∧
    (onCrossTabSignOut { stEx with mirror := mirrorEx }).mirror.txBackup ≠ none ∧
    (onCrossTabSignOut { stEx with mirror := mirrorEx }).session = none := by
  decide

/-- C9 amended: on receiving a sign_out broadcast from another tab, the
handler immediately clears the session and all three Local Cache
collections, resets the loaded and initial-data flags and marks the tab
just-logged-out, without waiting for any remote sign-out confirmation
(it performs no remote call) — but it leaves the durable local mirror
untouched and posts no broadcast of its own. -/
theorem onCrossTabSignOut_postcondition (st : AppState) :
    (onCrossTabSignOut st).session = none ∧
    (onCrossTabSignOut st).transactions = [] ∧
    (onCrossTabSignOut st).budgets = [] ∧
    (onCrossTabSignOut st).recurring = [] ∧
    (onCrossTabSignOut st).loadedFromSupabase = false ∧
    (onCrossTabSignOut st).lastLoadedUserId = none ∧
    (onCrossTabSignOut st).initialDataLoaded = false ∧
    (onCrossTabSignOut st).justLoggedOut = true ∧
    (onCrossTabSignOut st).mirror = st.mirror ∧
    (onCrossTabSignOut st).broadcasts = st.broadcasts := by
  unfold onCrossTabSignOut
  repeat constructor

/-- C4: when the remote delete reports zero affected rows, the handler
dispatches the verification read for that id; if the read confirms the
record absent remotely the delete is treated as success and the record
stays removed from the Local Cache; if the read shows the record still
present, or the read itself fails, the snapshot is restored and an
error is thrown to the caller. -/
theorem handleDeleteTransaction_zero_rows_verified
    (st : AppState) (id : String) (remote : DeleteRemote) (s : Session)
    (rows : List Transaction)
    (hs : st.session = some s)
    (hdel : remote.deleteResult = Except.ok rows)
    (hlen : rows.length = 0) :
    (handleDeleteTransaction st id remote).verificationDispatched = true ∧
    (remote.checkResult = Except.ok [] →
      (handleDeleteTransaction st id remote).state.transactions =
        st.transactions.filter (fun t => t.id ≠ id) ∧
      (handleDeleteTransaction st id remote).result = Except.ok ()) ∧
    (∀ ids, remote.checkResult = Except.ok ids → ids.length > 0 →
      (handleDeleteTransaction st id remote).state.transactions = st.transactions ∧
      (handleDeleteTransaction st id remote).result =
        Except.error "No rows were deleted (permission or non-existent record)") ∧
    (∀ e, remote.checkResult = Except.error e →
      (handleDeleteTransaction st id remote).state.transactions = st.transactions ∧
      (handleDeleteTransaction st id remote).result =
        Except.error "No rows were deleted (permission or non-existent record)") := by
  unfold handleDeleteTransaction
  rw [hs, hdel]
  simp only [hlen]
  refine ⟨?_, ?_, ?_, ?_⟩
  · cases hc : remote.checkResult with
    | error e => simp [hc]
    | ok ids =>
      by_cases h0 : ids.length > 0 <;> simp [hc, h0]
  · intro hc
    simp [hc]
  · intro ids hc h0
    simp [hc, h0]
  · intro e hc
    simp [hc]

/-- C4 witness: u1 deletes t1; the remote delete returns zero rows and
the verification read confirms absence, so the call succeeds and t1
stays removed. -/
theorem handleDeleteTransaction_zero_rows_verified_witness :
    (handleDeleteTransaction stEx "t1"
      ⟨Except.ok [], Except.ok [], Except.ok []⟩).verificationDispatched = true ∧
    (handleDeleteTransaction stEx "t1"
      ⟨Except.ok [], Except.ok [], Except.ok []⟩).state.transactions = [t2] ∧
    (handleDeleteTransaction stEx "t1"
      ⟨Except.ok [], Except.ok [], Except.ok []⟩).result = Except.ok () := by
  have h := handleDeleteTransaction_zero_rows_verified stEx "t1"
    ⟨Except.ok [], Except.ok [], Except.ok []⟩ sessionU1 [] rfl rfl rfl
  refine ⟨h.1, ?_, (h.2.1 rfl).2⟩
  rw [(h.2.1 rfl).1]
  decide

/-- C5 counterexample: u1 is authenticated with an access token in
state and deletes t1; the issued remote delete request carries the id
equality filter but no user_id filter at all (userFilter is none rather
than some u1), so the claim that every delete issued while
authenticated is scoped to the pair (id, ownerId) is false — the REST
delete path filters on id alone. -/
theorem handleDeleteTransaction_unscoped_delete_cex :
    (handleDeleteTransaction stEx "t1"
      ⟨Except.ok [t1], Except.ok [], Except.ok [t2]⟩).request =
      some ⟨"t1", none, [t2]⟩ ∧
    ((handleDeleteTransaction stEx "t1"
      ⟨Except.ok [t1], Except.ok [], Except.ok [t2]⟩).request.map
        (fun q => q.userFilter)) ≠ some (some "u1") ∧
    stEx.session = some sessionU1 := by
  decide

/-- C5 amended: for every delete issued while authenticated, the
handler removes the record from the Local Cache immediately, before the
remote call (the cache the delete request is dispatched against already
excludes the record); the remote delete is filtered by id alone when an
access token is held in state (owner scoping is left to the bearer
token), and by the pair (id, ownerId) only on the client fallback path
when no token is in state; and on remote delete failure the exact
pre-delete Local Cache state is restored and the failure is re-thrown
to the caller. -/
theorem handleDeleteTransaction_optimistic_rollback
    (st : AppState) (id : String) (remote : DeleteRemote) (s : Session)
    (hs : st.session = some s) :
    (handleDeleteTransaction st id remote).request =
      some ⟨id,
        (match s.accessToken with
          | some _ => none
          | none => some s.userId),
        st.transactions.filter (fun t => t.id ≠ id)⟩ ∧
    (∀ e, remote.deleteResult = Except.error e →
      (handleDeleteTransaction st id remote).state.transactions = st.transactions ∧
      (handleDeleteTransaction st id remote).result = Except.error e) := by
  unfold handleDeleteTransaction
  rw [hs]
  constructor
  · cases ht : s.accessToken with
    | some tok =>
      cases hd : remote.deleteResult with
      | error e => simp [ht, hd]
      | ok rows =>
        by_cases h0 : rows.length = 0
        · cases hc : remote.checkResult with
          | error e => simp [ht, hd, h0, hc]
          | ok ids => by_cases hi : ids.length > 0 <;> simp [ht, hd, h0, hc, hi]
        · cases hr : remote.refetchResult with
          | error e => simp [ht, hd, h0, hr]
          | ok txs => simp [ht, hd, h0, hr]
    | none =>
      cases hd : remote.deleteResult with
      | error e => simp [ht, hd]
      | ok rows =>
        by_cases h0 : rows.length = 0
        · cases hc : remote.checkResult with
          | error e => simp [ht, hd, h0, hc]
          | ok ids => by_cases hi : ids.length > 0 <;> simp [ht, hd, h0, hc, hi]
        · cases hr : remote.refetchResult with
          | error e => simp [ht, hd, h0, hr]
          | ok txs => simp [ht, hd, h0, hr]
  · intro e hd
    cases ht : s.accessToken <;> simp [ht, hd]

/-- C5 witness: u1 deletes t1 while the remote delete fails; the
request is filtered on the id with the post-removal cache attached, the
pre-delete cache [t1, t2] is restored, and the error is re-thrown. -/
theorem handleDeleteTransaction_optimistic_rollback_witness :
    (handleDeleteTransaction stEx "t1"
      ⟨Except.error "network down", Except.ok [], Except.ok []⟩).request =
      some ⟨"t1", none, [t2]⟩ ∧
    (handleDeleteTransaction stEx "t1"
      ⟨Except.error "network down", Except.ok [], Except.ok []⟩).state.transactions =
      [t1, t2] ∧
    (handleDeleteTransaction stEx "t1"
      ⟨Except.error "network down", Except.ok [], Except.ok []⟩).result =
      Except.error "network down" := by
  have h := handleDeleteTransaction_optimistic_rollback stEx "t1"
    ⟨Except.error "network down", Except.ok [], Except.ok []⟩ sessionU1 rfl
  refine ⟨?_, ?_, (h.2 "network down" rfl).2⟩
  · rw [h.1]
    decide
  · rw [(h.2 "network down" rfl).1]
    decide

/-- C10: there are executions of handleDeleteTransaction in which the
remote delete succeeds with a positive affected-row count but the
follow-up authoritative re-read of the transactions collection fails;
the handler then restores the pre-delete snapshot, so the record
confirmed removed remotely is present locally again, and the call
resolves without surfacing any error to the caller. -/
theorem handleDeleteTransaction_confirmed_delete_resurrects
    (st : AppState) (id : String) (remote : DeleteRemote) (s : Session)
    (rows : List Transaction) (e : String)
    (hs : st.session = some s)
    (hdel : remote.deleteResult = Except.ok rows)
    (hlen : rows.length ≠ 0)
    (hre : remote.refetchResult = Except.error e) :
    (handleDeleteTransaction st id remote).state.transactions = st.transactions ∧
    (handleDeleteTransaction st id remote).result = Except.ok () := by
  unfold handleDeleteTransaction
  rw [hs, hdel]
  simp [hlen, hre]

/-- C10 witness: deleting t1 succeeds remotely (one row affected) but
the re-read fails; t1 is back in the Local Cache and the call resolved
successfully. -/
theorem handleDeleteTransaction_confirmed_delete_resurrects_witness :
    (handleDeleteTransaction stEx "t1"
      ⟨Except.ok [t1], Except.ok [], Except.error "refetch failed"⟩).result =
      Except.ok () ∧
    t1 ∈ (handleDeleteTransaction stEx "t1"
      ⟨Except.ok [t1], Except.ok [], Except.error "refetch failed"⟩).state.transactions := by
  have h := handleDeleteTransaction_confirmed_delete_resurrects stEx "t1"
    ⟨Except.ok [t1], Except.ok [], Except.error "refetch failed"⟩ sessionU1
    [t1] "refetch failed" rfl rfl (by decide) rfl
  refine ⟨h.2, ?_⟩
  rw [h.1]
  decide

/-- C6 counterexample: u1 is authenticated and creates a budget; the
remote insert fails, yet the unconfirmed budget is appended to the
Local Cache (the catch-block fallback) and the returned promise
resolves, so the creation error is not surfaced to the caller — the
claim that a failed create never updates the cache while authenticated
is false for budgets (and, symmetrically, for recurring templates). -/
theorem handleAddBudget_failure_keeps_unconfirmed_record_cex :
    (handleAddBudget stEx ⟨"b2", "u1", 200⟩
      ⟨Except.error "insert failed", Except.ok []⟩).state.budgets =
      [b1, ⟨"b2", "u1", 200⟩] ∧
    (⟨"b2", "u1", 200⟩ : BudgetGoal) ∈
      (handleAddBudget stEx ⟨"b2", "u1", 200⟩
        ⟨Except.error "insert failed", Except.ok []⟩).state.budgets ∧
    (handleAddBudget stEx ⟨"b2", "u1", 200⟩
      ⟨Except.error "insert failed", Except.ok []⟩).result = Except.ok () ∧
    stEx.session = some sessionU1 := by
  exact ⟨by decide, by decide, rfl, rfl⟩

/-- C6 amended: while authenticated, a failed transaction insert is
surfaced to the caller as a rejected promise and leaves the Local Cache
untouched; failed budget and recurring inserts instead append the
unconfirmed record to the Local Cache as a fallback, surface the
failure only as a toast notification, and resolve the returned promise;
the remote insert is always dispatched while authenticated (for
budgets and recurring, and for transactions when a token is held), and
a local-only create path with no remote dispatch exists only when no
identity is authenticated. -/
theorem createRecord_failure_behavior
    (st st2 : AppState) (s : Session) (tok e : String)
    (tx : Transaction) (b : BudgetGoal) (rc : RecurringTransaction)
    (rtx : AddTxRemote) (rb : AddBudgetRemote) (rr : AddRecurringRemote)
    (hs : st.session = some s) (hs2 : st2.session = none) :
    (s.accessToken = some tok → rtx.insertResult = Except.error e →
      (handleAddTransaction st tx rtx).state.transactions = st.transactions ∧
      (handleAddTransaction st tx rtx).result = Except.error e ∧
      (handleAddTransaction st tx rtx).remoteDispatched = true) ∧
    (rb.insertResult = Except.error e →
      (handleAddBudget st b rb).state.budgets = st.budgets ++ [b] ∧
      (handleAddBudget st b rb).result = Except.ok () ∧
      (handleAddBudget st b rb).state.toasts = st.toasts ++ ["Budget failed to save"]) ∧
    (rr.insertResult = Except.error e →
      (handleAddRecurring st rc rr).state.recurring = st.recurring ++ [rc] ∧
      (handleAddRecurring st rc rr).result = Except.ok () ∧
      (handleAddRecurring st rc rr).state.toasts = st.toasts ++ ["Recurring failed to save"]) ∧
    (handleAddBudget st b rb).remoteDispatched = true ∧
    (handleAddRecurring st rc rr).remoteDispatched = true ∧
    ((handleAddTransaction st2 tx rtx).remoteDispatched = false ∧
      (handleAddTransaction st2 tx rtx).state.transactions = tx :: st2.transactions ∧
      (handleAddBudget st2 b rb).remoteDispatched = false ∧
      (handleAddBudget st2 b rb).state.budgets = st2.budgets ++ [b] ∧
      (handleAddRecurring st2 rc rr).remoteDispatched = false ∧
      (handleAddRecurring st2 rc rr).state.recurring = st2.recurring ++ [rc]) := by
  refine ⟨?_, ?_, ?_, ?_, ?_, ?_⟩
  · intro ht hi
    simp [handleAddTransaction, hs, ht, hi]
  · intro hi
    simp [handleAddBudget, hs, hi]
  · intro hi
    simp [handleAddRecurring, hs, hi]
  · simp only [handleAddBudget, hs]
    cases hi : rb.insertResult with
    | error e2 => rfl
    | ok u =>
      cases hr : rb.refetchResult with
      | error e2 => rfl
      | ok l => rfl
  · simp only [handleAddRecurring, hs]
    cases hi : rr.insertResult with
    | error e2 => rfl
    | ok u =>
      cases hr : rr.refetchResult with
      | error e2 => rfl
      | ok l => rfl
  · simp [handleAddTransaction, handleAddBudget, handleAddRecurring, hs2]

/-- C6 witness: with u1 authenticated, a failed transaction insert
leaves the cache unchanged and rejects, a failed budget insert appends
the unconfirmed budget and resolves, and in an unauthenticated tab a
create dispatches no remote insert. -/
theorem createRecord_failure_behavior_witness :
    ((handleAddTransaction stEx t3
      ⟨Except.error "insert failed", Except.ok []⟩).state.transactions = [t1, t2] ∧
      (handleAddTransaction stEx t3
        ⟨Except.error "insert failed", Except.ok []⟩).result = Except.error "insert failed") ∧
    (handleAddBudget stEx ⟨"b2", "u1", 200⟩
      ⟨Except.error "insert failed", Except.ok []⟩).result = Except.ok () ∧
    (handleAddTransaction { stEx with session := none } t3
      ⟨Except.error "insert failed", Except.ok []⟩).remoteDispatched = false := by
  have h := createRecord_failure_behavior stEx { stEx with session := none }
    sessionU1 "tok1" "insert failed" t3 ⟨"b2", "u1", 200⟩ ⟨"r2", "u1"⟩
    ⟨Except.error "insert failed", Except.ok []⟩
    ⟨Except.error "insert failed", Except.ok []⟩
    ⟨Except.error "insert failed", Except.ok []⟩
    rfl rfl
  refine ⟨⟨?_, (h.1 rfl rfl).2.1⟩, (h.2.1 rfl).2.1, h.2.2.2.2.2.1⟩
  rw [(h.1 rfl rfl).1]
  decide

end FinanceFlow
